import Mathlib

/-!
# ReShade device layer: handle registry and copy operations

A shallow embedding of

* `source/d3d12/d3d12_impl_device.hpp` : the view directory `_views` and the two
  overloads of `device_impl::register_resource_view`;
* `source/d3d10/render_d3d10.cpp` : the format support check, handle validity checks,
  object creation and the region copy operations of `device_impl`.

Pointers and handles are natural numbers (the address); `0` is the null pointer and
the null handle. Fixed-width unsigned arithmetic is written with an explicit `%`.
Locks are not modelled: every operation is a function from the state before the call
to the state after it.
-/

namespace reshade

/-! ## `std::unordered_map<SIZE_T, V>` -/

/-- A `std::unordered_map<SIZE_T, V>`: a finite list of (key, value) entries. -/
abbrev unordered_map (V : Type) := List (Nat × V)

namespace unordered_map

/-- `m.find(key)`: `none` stands for `m.end()`, `some v` for an iterator whose
`second` is `v`. -/
def find {V : Type} : unordered_map V → Nat → Option V
  | [], _ => none
  | (k, v) :: rest, key => if k = key then some v else find rest key

/-- `m.insert_or_assign(key, v)`: overwrite the value stored under `key` when the key
is present, otherwise add a new entry. -/
def insert_or_assign {V : Type} : unordered_map V → Nat → V → unordered_map V
  | [], key, v => [(key, v)]
  | (k, w) :: rest, key, v =>
    if k = key then (k, v) :: rest else (k, w) :: insert_or_assign rest key v

/-- The keys stored in the map, in storage order. -/
def keys {V : Type} (m : unordered_map V) : List Nat := m.map Prod.fst

end unordered_map

/-! ## Direct3D 12: the view directory -/

namespace d3d12

/-- The part of `d3d12::device_impl` that `register_resource_view` touches: `_views`
maps a CPU descriptor handle (`handle.ptr`) to the pair of the owning
`ID3D12Resource *` and the view description. The description type
`api::resource_view_desc` is declared outside this header and is the parameter `D`. -/
structure device_impl (D : Type) where
  _views : unordered_map (Nat × D)

/-- `register_resource_view(handle, resource, desc)` (lines 122-126):
`_views.insert_or_assign(handle.ptr, std::make_pair(resource, desc))`. -/
def register_resource_view {D : Type} (dev : device_impl D) (handle resource : Nat)
    (desc : D) : device_impl D :=
  { _views := dev._views.insert_or_assign handle (resource, desc) }

/-- `register_resource_view(handle, source_handle)` (lines 127-135), the overload that
copies an existing entry. The second component is `true` exactly when control reaches
`assert(false)`. -/
def register_resource_view_copy {D : Type} (dev : device_impl D)
    (handle source_handle : Nat) : device_impl D × Bool :=
  match dev._views.find source_handle with
  | some second => ({ _views := dev._views.insert_or_assign handle second }, false)
  | none => (dev, true)

end d3d12

/-! ## Direct3D 10: handles, creation and copies -/

namespace d3d10

/-- Modelled from the spec: the object registry type of `_resources` and `_views`,
declared in `render_d3d10.hpp` (not part of the sources at hand). The spec describes a
directory of registered native object identities with a membership check; the
identities are kept here as the list of registered object addresses. -/
structure object_registry where
  objects : List Nat
deriving DecidableEq, Repr

/-- Modelled from the spec: `has_object(object)`, the membership check of the
registry: is `object` currently registered. -/
def object_registry.has_object (r : object_registry) (object : Nat) : Bool :=
  decide (object ∈ r.objects)

/-- Modelled from the spec: `register_object(object)`, which records `object` as
registered. -/
def object_registry.register_object (r : object_registry) (object : Nat) :
    object_registry :=
  { objects := r.objects ++ [object] }

/-- The two registries of `d3d10::device_impl`. -/
structure device_impl where
  _resources : object_registry
  _views : object_registry
deriving DecidableEq, Repr

/-- Lines 55-58, `resource.handle != 0 && _resources.has_object(...)`, with the
short-circuit evaluation of `&&` made explicit: the second component counts the calls
of `has_object` that were made. -/
def check_resource_handle_valid_traced (dev : device_impl) (resource : Nat) : Bool × Nat :=
  if resource != 0 then (dev._resources.has_object resource, 1) else (false, 0)

/-- The value returned by `check_resource_handle_valid`. -/
def check_resource_handle_valid (dev : device_impl) (resource : Nat) : Bool :=
  (check_resource_handle_valid_traced dev resource).1

/-- Lines 59-62, `view.handle != 0 && _views.has_object(...)`; the second component
counts the calls of `has_object`. -/
def check_resource_view_handle_valid_traced (dev : device_impl) (view : Nat) : Bool × Nat :=
  if view != 0 then (dev._views.has_object view, 1) else (false, 0)

/-- The value returned by `check_resource_view_handle_valid`. -/
def check_resource_view_handle_valid (dev : device_impl) (view : Nat) : Bool :=
  (check_resource_view_handle_valid_traced dev view).1

/-- The Windows macro `SUCCEEDED(hr)`, that is `hr >= 0` on the signed `HRESULT`. -/
def SUCCEEDED (hr : Int) : Bool := decide (0 ≤ hr)

/-- What a native `Create...` call hands back: the `HRESULT` and the pointer it stored
in `object` (which the caller had set to `nullptr` before the call). -/
structure native_reply where
  hr : Int
  object : Nat
deriving DecidableEq, Repr

/-- The values of `api::resource_type`: the four enumerators the source names, and
`unlisted` for any value of the enumeration that `create_resource` has no case for. -/
inductive resource_type where
  | buffer
  | texture_1d
  | texture_2d
  | texture_3d
  | unlisted (value : Nat)
deriving DecidableEq, Repr

/-- The numeric values of the `api::resource_usage` enumerators used by the source.
The enumeration is declared in a header outside the sources at hand, so the values
are parameters. -/
structure resource_usage_values where
  depth_stencil : Nat
  render_target : Nat
  shader_resource : Nat
  unordered_access : Nat
  resolve_source : Nat
  resolve_dest : Nat
deriving DecidableEq, Repr

/-- One assignment of pairwise different values to the enumerators, for evaluating
`create_resource_view` on concrete inputs. -/
def sample_usage_values : resource_usage_values :=
  { depth_stencil := 48, render_target := 4, shader_resource := 192,
    unordered_access := 8, resolve_source := 8192, resolve_dest := 4096 }

/-- The outcome of a `create_...` call: the device afterwards, the handle written to
`*out`, and the returned `bool`. -/
structure create_result where
  device : device_impl
  out : Nat
  ret : Bool
deriving DecidableEq, Repr

/-- Lines 64-78. `reply` is the outcome of `_orig->CreateSamplerState`. -/
def create_sampler (dev : device_impl) (reply : native_reply) : create_result :=
  if SUCCEEDED reply.hr then
    { device := dev, out := reply.object, ret := true }
  else
    { device := dev, out := 0, ret := false }

/-- One `case` body of `create_resource`: on success register the object, write its
address to `*out` and return `true`; `none` stands for `break`. -/
def create_resource_case (dev : device_impl) (reply : native_reply) : Option create_result :=
  if SUCCEEDED reply.hr then
    some { device := { dev with _resources := dev._resources.register_object reply.object },
           out := reply.object, ret := true }
  else
    none

/-- Lines 79-145. `type` is `desc.type`; `reply` is the outcome of the native
`CreateBuffer` / `CreateTexture1D` / `CreateTexture2D` / `CreateTexture3D` call of the
selected case. After a `break`, or when no case matches, `*out = { 0 }` and the call
returns `false`. -/
def create_resource (dev : device_impl) (type : resource_type) (reply : native_reply) :
    create_result :=
  let selected : Option create_result :=
    match type with
    | .buffer => create_resource_case dev reply
    | .texture_1d => create_resource_case dev reply
    | .texture_2d => create_resource_case dev reply
    | .texture_3d => create_resource_case dev reply
    | .unlisted _ => none
  match selected with
  | some result => result
  | none => { device := dev, out := 0, ret := false }

/-- One `case` body of `create_resource_view`. -/
def create_resource_view_case (dev : device_impl) (reply : native_reply) :
    Option create_result :=
  if SUCCEEDED reply.hr then
    some { device := { dev with _views := dev._views.register_object reply.object },
           out := reply.object, ret := true }
  else
    none

/-- Lines 146-198. `usage_type` is the raw value of the `api::resource_usage` argument,
`U` gives the values of the case labels, `reply` is the outcome of the native
`CreateDepthStencilView` / `CreateRenderTargetView` / `CreateShaderResourceView` call.
The `assert(resource.handle != 0)` of line 148 has no effect on the result. -/
def create_resource_view (U : resource_usage_values) (dev : device_impl) (resource : Nat)
    (usage_type : Nat) (reply : native_reply) : create_result :=
  let _ := resource
  let selected : Option create_result :=
    if usage_type = U.depth_stencil then create_resource_view_case dev reply
    else if usage_type = U.render_target then create_resource_view_case dev reply
    else if usage_type = U.shader_resource then create_resource_view_case dev reply
    else none
  match selected with
  | some result => result
  | none => { device := dev, out := 0, ret := false }

/-- The largest `UINT`, `std::numeric_limits<UINT>::max()`. -/
def UINT_MAX : Nat := 4294967295

/-- `static_cast<UINT>(x)` of an unsigned value: reduction modulo `2^32`. -/
def to_UINT (x : Nat) : Nat := x % 2 ^ 32

/-- The conversion of an `int32_t` to `UINT` (assignment to a `UINT` field): the
two's complement value modulo `2^32`. -/
def int32_to_UINT (x : Int) : Nat := (x % 2 ^ 32).toNat

/-- `a + b` on `uint64_t`. -/
def add_u64 (a b : Nat) : Nat := (a + b) % 2 ^ 64

/-- `a + b` on `UINT`. -/
def add_UINT (a b : Nat) : Nat := (a + b) % 2 ^ 32

/-- The Direct3D structure `D3D10_BOX`, fields in declaration order (the order that
the aggregate initialisation of line 295 fills). -/
structure D3D10_BOX where
  left : Nat
  top : Nat
  front : Nat
  right : Nat
  bottom : Nat
  back : Nat
deriving DecidableEq, Repr

/-- The arguments of one call of `ID3D10Device::CopySubresourceRegion`, named after
its parameters in order: destination resource, destination subresource, destination
x, y, z, source resource, source subresource, source box. -/
structure CopySubresourceRegion_call where
  pDstResource : Nat
  DstSubresource : Nat
  DstX : Nat
  DstY : Nat
  DstZ : Nat
  pSrcResource : Nat
  SrcSubresource : Nat
  pSrcBox : D3D10_BOX
deriving DecidableEq, Repr

/-- The two `assert`s of `copy_buffer_region` (lines 292-293). -/
def copy_buffer_region_asserts (src src_offset dst dst_offset size : Nat) : Bool :=
  (src != 0 && dst != 0) &&
  (decide (src_offset ≤ UINT_MAX) && decide (dst_offset ≤ UINT_MAX) && decide (size ≤ UINT_MAX))

/-- Lines 290-300: the native call issued by `copy_buffer_region`. The offsets and the
size are `uint64_t` values. -/
def copy_buffer_region (src src_offset dst dst_offset size : Nat) :
    CopySubresourceRegion_call :=
  let src_box : D3D10_BOX :=
    { left := to_UINT src_offset, top := 0, front := 0,
      right := to_UINT (add_u64 src_offset size), bottom := 1, back := 1 }
  { pDstResource := dst, DstSubresource := 0, DstX := to_UINT dst_offset, DstY := 0, DstZ := 0,
    pSrcResource := src, SrcSubresource := 0, pSrcBox := src_box }

/-- The fields of `api::resource_desc` that `copy_texture_region` reads. `width` and
`height` are 32-bit, `depth_or_layers` and `levels` 16-bit unsigned values. -/
structure resource_desc where
  type : resource_type
  width : Nat
  height : Nat
  depth_or_layers : Nat
  levels : Nat
deriving DecidableEq, Repr

/-- Lines 305-340: the native call issued by `copy_texture_region`. A null array
argument is `none`. `desc` is what `get_resource_desc(src)` returns. The `%` by
`desc.levels` and the shifts are those of the source; C++ leaves them undefined for
`levels = 0` and for shift counts of 32 or more. -/
def copy_texture_region (desc : resource_desc) (src src_subresource : Nat)
    (src_offset : Option (Int × Int × Int)) (dst dst_subresource : Nat)
    (dst_offset : Option (Int × Int × Int)) (size : Option (Nat × Nat × Nat)) :
    CopySubresourceRegion_call :=
  let left := match src_offset with
    | some o => int32_to_UINT o.1
    | none => 0
  let top := match src_offset with
    | some o => int32_to_UINT o.2.1
    | none => 0
  let front := match src_offset with
    | some o => int32_to_UINT o.2.2
    | none => 0
  let src_box : D3D10_BOX :=
    match size with
    | some s =>
      { left := left, top := top, front := front,
        right := add_UINT left s.1,
        bottom := add_UINT top s.2.1,
        back := add_UINT front s.2.2 }
    | none =>
      { left := left, top := top, front := front,
        right := add_UINT left (max 1 (desc.width >>> (src_subresource % desc.levels))),
        bottom := add_UINT top (max 1 (desc.height >>> (src_subresource % desc.levels))),
        back := add_UINT front
          (if desc.type = resource_type.texture_3d then
            max 1 (desc.depth_or_layers >>> (src_subresource % desc.levels))
           else 1) }
  { pDstResource := dst,
    DstSubresource := src_subresource,
    DstX := match dst_offset with
      | some o => int32_to_UINT o.1
      | none => 0,
    DstY := match dst_offset with
      | some o => int32_to_UINT o.2.1
      | none => 0,
    DstZ := match dst_offset with
      | some o => int32_to_UINT o.2.2
      | none => 0,
    pSrcResource := src,
    SrcSubresource := dst_subresource,
    pSrcBox := src_box }

/-- Lines 275-283: the native `ResolveSubresource` call issued by `resolve`, as
(destination resource, destination subresource, source resource, source subresource,
format). -/
def resolve (src src_subresource dst dst_subresource format : Nat) :
    Nat × Nat × Nat × Nat × Nat :=
  (dst, dst_subresource, src, src_subresource, format)

/-- The Windows macro `FAILED(hr)`, that is `hr < 0` on the signed `HRESULT`. -/
def FAILED (hr : Int) : Bool := decide (hr < 0)

/-- The values of the `D3D10_FORMAT_SUPPORT_...` bits that `check_format_support` tests.
They come from the Direct3D headers, outside the sources at hand, so they are
parameters. -/
structure D3D10_FORMAT_SUPPORT where
  RENDER_TARGET : Nat
  DEPTH_STENCIL : Nat
  SHADER_SAMPLE : Nat
  MULTISAMPLE_RESOLVE : Nat
deriving DecidableEq, Repr

/-- One assignment of single bits to the support flags, for evaluating
`check_format_support` on concrete inputs. -/
def sample_format_support : D3D10_FORMAT_SUPPORT :=
  { RENDER_TARGET := 16384, DEPTH_STENCIL := 65536, SHADER_SAMPLE := 512,
    MULTISAMPLE_RESOLVE := 262144 }

/-- What the native `CheckFormatSupport` hands back: the `HRESULT`, and the value of
`support` after the call (the caller had set it to 0 before). -/
structure format_support_reply where
  hr : Int
  support : Nat
deriving DecidableEq, Repr

/-- Lines 30-53. `usage` is the raw value of the `api::resource_usage` mask, `U` and `S`
give the values of the usage enumerators and of the support bits, and
`CheckFormatSupport` is the native driver, called with the format. Each `if` of the
source that returns false is one branch here, in the same order. -/
def check_format_support (U : resource_usage_values) (S : D3D10_FORMAT_SUPPORT)
    (CheckFormatSupport : Nat → format_support_reply) (format usage : Nat) : Bool :=
  if (usage &&& U.unordered_access) != 0 then false
  else
    let reply := CheckFormatSupport format
    if FAILED reply.hr then false
    else if (usage &&& U.render_target) != 0 && (reply.support &&& S.RENDER_TARGET) == 0 then
      false
    else if (usage &&& U.depth_stencil) != 0 && (reply.support &&& S.DEPTH_STENCIL) == 0 then
      false
    else if (usage &&& U.shader_resource) != 0 && (reply.support &&& S.SHADER_SAMPLE) == 0 then
      false
    else if (usage &&& (U.resolve_source ||| U.resolve_dest)) != 0 &&
        (reply.support &&& S.MULTISAMPLE_RESOLVE) == 0 then
      false
    else true

end d3d10

/-! ## Lemmas on the map -/

namespace unordered_map

theorem find_insert_or_assign_self {V : Type} (m : unordered_map V) (key : Nat) (v : V) :
    find (insert_or_assign m key v) key = some v := by
  induction m with
  | nil => simp [insert_or_assign, find]
  | cons e rest ih =>
    obtain ⟨k, w⟩ := e
    by_cases hk : k = key
    · simp [insert_or_assign, find, hk]
    · simp [insert_or_assign, find, hk, ih]

theorem find_insert_or_assign_of_ne {V : Type} (m : unordered_map V) (key other : Nat)
    (v : V) (hne : other ≠ key) :
    find (insert_or_assign m key v) other = find m other := by
  induction m with
  | nil =>
    have hne2 : ¬ key = other := fun h => hne h.symm
    simp [insert_or_assign, find, hne2]
  | cons e rest ih =>
    obtain ⟨k, w⟩ := e
    have hne2 : ¬ key = other := fun h => hne h.symm
    by_cases hk : k = key
    · subst hk
      simp [insert_or_assign, find, hne2]
    · by_cases hko : k = other
      · subst hko
        simp [insert_or_assign, find, hk]
      · simp [insert_or_assign, find, hk, hko, ih]

theorem find_isSome_iff_mem_keys {V : Type} (m : unordered_map V) (key : Nat) :
    (find m key).isSome = true ↔ key ∈ keys m := by
  induction m with
  | nil => simp [find, keys]
  | cons e rest ih =>
    obtain ⟨k, w⟩ := e
    by_cases hk : k = key
    · simp [find, keys, hk]
    · have hk2 : ¬ key = k := fun h => hk h.symm
      have ih2 := ih
      simp only [keys] at ih2
      simp [find, keys, hk, hk2, ih2]

theorem keys_insert_or_assign_of_mem {V : Type} (m : unordered_map V) (key : Nat) (v : V)
    (hmem : key ∈ keys m) : keys (insert_or_assign m key v) = keys m := by
  induction m with
  | nil => simp [keys] at hmem
  | cons e rest ih =>
    obtain ⟨k, w⟩ := e
    by_cases hk : k = key
    · simp [insert_or_assign, keys, hk]
    · have hk2 : ¬ key = k := fun h => hk h.symm
      have hrest : key ∈ keys rest := by
        simpa [keys, hk2] using hmem
      have ih2 := ih hrest
      simp only [keys] at ih2
      simp [insert_or_assign, keys, hk, ih2]

theorem keys_insert_or_assign_of_not_mem {V : Type} (m : unordered_map V) (key : Nat)
    (v : V) (hmem : key ∉ keys m) : keys (insert_or_assign m key v) = keys m ++ [key] := by
  induction m with
  | nil => simp [insert_or_assign, keys]
  | cons e rest ih =>
    obtain ⟨k, w⟩ := e
    have hk : ¬ k = key := by
      intro h
      apply hmem
      simp [keys, h]
    have hrest : key ∉ keys rest := by
      intro h
      apply hmem
      simp only [keys] at h
      simp [keys, h]
    have ih2 := ih hrest
    simp only [keys] at ih2
    simp [insert_or_assign, keys, hk, ih2]

end unordered_map

/-! ## Direct3D 12: registering views -/

namespace d3d12

/-- C8: after `register_resource_view(h, r, d)` the entry found for `h` is exactly
`(r, d)`; the lookup of every other handle is what it was (so an absent handle other
than `h` stays absent); and the map holds no second entry for `h`: the key list is
unchanged when `h` was present and grows by `h` alone when it was not. -/
theorem register_resource_view_entry {D : Type} (dev : device_impl D) (h r : Nat) (d : D) :
    (register_resource_view dev h r d)._views.find h = some (r, d) ∧
    (∀ k, k ≠ h → (register_resource_view dev h r d)._views.find k = dev._views.find k) ∧
    (∀ k, k ≠ h → dev._views.find k = none →
      (register_resource_view dev h r d)._views.find k = none) ∧
    (h ∈ dev._views.keys → (register_resource_view dev h r d)._views.keys = dev._views.keys) ∧
    (h ∉ dev._views.keys →
      (register_resource_view dev h r d)._views.keys = dev._views.keys ++ [h]) := by
  refine ⟨?_, ?_, ?_, ?_, ?_⟩
  · exact unordered_map.find_insert_or_assign_self _ _ _
  · intro k hk
    exact unordered_map.find_insert_or_assign_of_ne _ _ _ _ hk
  · intro k hk habs
    rw [← habs]
    exact unordered_map.find_insert_or_assign_of_ne _ _ _ _ hk
  · intro hmem
    exact unordered_map.keys_insert_or_assign_of_mem _ _ _ hmem
  · intro hmem
    exact unordered_map.keys_insert_or_assign_of_not_mem _ _ _ hmem

/-- Witness for C8 on the map `{7 ↦ (1, 10), 9 ↦ (2, 20)}`, re-registering handle 7. -/
theorem register_resource_view_entry_witness :
    (register_resource_view ({ _views := [(7, (1, 10)), (9, (2, 20))] } : device_impl Nat)
        7 3 30)._views.find 7 = some (3, 30) ∧
    (register_resource_view ({ _views := [(7, (1, 10)), (9, (2, 20))] } : device_impl Nat)
        7 3 30)._views.find 9 = some (2, 20) ∧
    (register_resource_view ({ _views := [(7, (1, 10)), (9, (2, 20))] } : device_impl Nat)
        7 3 30)._views.keys = [7, 9] :=
  ⟨(register_resource_view_entry _ 7 3 30).1,
   ((register_resource_view_entry
      ({ _views := [(7, (1, 10)), (9, (2, 20))] } : device_impl Nat) 7 3 30).2.1 9
      (by decide)).trans (by decide),
   (register_resource_view_entry
      ({ _views := [(7, (1, 10)), (9, (2, 20))] } : device_impl Nat) 7 3 30).2.2.2.1
      (by decide)⟩

/-- C2, counterexample: copying handle 5 onto itself and then re-registering the
source handle 5 with another resource changes the entry of the copy's handle. -/
theorem register_resource_view_copy_same_handle :
    ({ _views := [(5, (1, 0))] } : device_impl Nat)._views.find 5 = some (1, 0) ∧
    (register_resource_view_copy ({ _views := [(5, (1, 0))] } : device_impl Nat)
        5 5).1._views.find 5 = some (1, 0) ∧
    (register_resource_view
        (register_resource_view_copy ({ _views := [(5, (1, 0))] } : device_impl Nat) 5 5).1
        5 2 0)._views.find 5 = some (2, 0) ∧
    (register_resource_view
        (register_resource_view_copy ({ _views := [(5, (1, 0))] } : device_impl Nat) 5 5).1
        5 2 0)._views.find 5 ≠ some (1, 0) := by
  decide

/-- C2, amended: when `source_handle` is present with value `second`, the copy overload
does not reach the assertion and stores `second` under `handle`; and when `handle` and
`source_handle` are different handles the two entries are independent values: a later
registration of `source_handle` leaves the entry of `handle` at `second`, and a later
registration of `handle` leaves the entry of `source_handle` at `second`. -/
theorem register_resource_view_copy_value {D : Type} (dev : device_impl D)
    (handle source_handle : Nat) (second : Nat × D)
    (hsrc : dev._views.find source_handle = some second) :
    (register_resource_view_copy dev handle source_handle).2 = false ∧
    (register_resource_view_copy dev handle source_handle).1._views.find handle
      = some second ∧
    (handle ≠ source_handle →
      (register_resource_view_copy dev handle source_handle).1._views.find source_handle
        = some second ∧
      ∀ (resource : Nat) (desc : D),
        (register_resource_view (register_resource_view_copy dev handle source_handle).1
          source_handle resource desc)._views.find handle = some second ∧
        (register_resource_view (register_resource_view_copy dev handle source_handle).1
          handle resource desc)._views.find source_handle = some second) := by
  have hcopy : register_resource_view_copy dev handle source_handle
      = ({ _views := dev._views.insert_or_assign handle second }, false) := by
    simp [register_resource_view_copy, hsrc]
  rw [hcopy]
  refine ⟨rfl, ?_, ?_⟩
  · exact unordered_map.find_insert_or_assign_self _ _ _
  · intro hne
    have hsrc2 : unordered_map.find (unordered_map.insert_or_assign dev._views handle second)
        source_handle = some second := by
      rw [unordered_map.find_insert_or_assign_of_ne _ _ _ _ (Ne.symm hne)]
      exact hsrc
    refine ⟨hsrc2, ?_⟩
    intro resource desc
    constructor
    · show unordered_map.find (unordered_map.insert_or_assign
        (unordered_map.insert_or_assign dev._views handle second) source_handle
        (resource, desc)) handle = some second
      rw [unordered_map.find_insert_or_assign_of_ne _ _ _ _ hne]
      exact unordered_map.find_insert_or_assign_self _ _ _
    · show unordered_map.find (unordered_map.insert_or_assign
        (unordered_map.insert_or_assign dev._views handle second) handle
        (resource, desc)) source_handle = some second
      rw [unordered_map.find_insert_or_assign_of_ne _ _ _ _ (Ne.symm hne)]
      exact hsrc2

/-- Witness for the amended C2: copy handle 5 to handle 6, then re-register either. -/
theorem register_resource_view_copy_value_witness :
    ({ _views := [(5, (1, 0))] } : device_impl Nat)._views.find 5 = some (1, 0) ∧
    (register_resource_view_copy ({ _views := [(5, (1, 0))] } : device_impl Nat)
        6 5).1._views.find 6 = some (1, 0) ∧
    (register_resource_view
        (register_resource_view_copy ({ _views := [(5, (1, 0))] } : device_impl Nat) 6 5).1
        5 2 0)._views.find 6 = some (1, 0) ∧
    (register_resource_view
        (register_resource_view_copy ({ _views := [(5, (1, 0))] } : device_impl Nat) 6 5).1
        6 2 0)._views.find 5 = some (1, 0) :=
  ⟨by decide,
   (register_resource_view_copy_value
      ({ _views := [(5, (1, 0))] } : device_impl Nat) 6 5 (1, 0) (by decide)).2.1,
   (((register_resource_view_copy_value
      ({ _views := [(5, (1, 0))] } : device_impl Nat) 6 5 (1, 0) (by decide)).2.2
      (by decide)).2 2 0).1,
   (((register_resource_view_copy_value
      ({ _views := [(5, (1, 0))] } : device_impl Nat) 6 5 (1, 0) (by decide)).2.2
      (by decide)).2 2 0).2⟩

/-- C3, counterexample: on an empty view map, registering view handle 1 for the null
resource adds the entry `1 ↦ (0, 7)`: nothing is detected and nothing is aborted. -/
theorem register_resource_view_null_resource :
    ({ _views := [] } : device_impl Nat)._views.find 1 = none ∧
    (register_resource_view ({ _views := [] } : device_impl Nat) 1 0 7)._views.find 1
      = some (0, 7) := by
  decide

/-- C3, amended: `register_resource_view(handle, resource, desc)` does not look at the
owning resource. For every notion `is_valid` of a valid registered resource and every
call whose resource is not valid, the entry for `handle` is written all the same and
becomes `(resource, desc)`; this holds for the null resource too. -/
theorem register_resource_view_unchecked {D : Type} (is_valid : Nat → Bool)
    (dev : device_impl D) (handle resource : Nat) (desc : D)
    (_hinvalid : is_valid resource = false) :
    (register_resource_view dev handle resource desc)._views.find handle
      = some (resource, desc) ∧
    (register_resource_view dev handle 0 desc)._views.find handle = some (0, desc) :=
  ⟨unordered_map.find_insert_or_assign_self _ _ _,
   unordered_map.find_insert_or_assign_self _ _ _⟩

/-- Witness for the amended C3: no resource at all is valid, and resource 3 is given
as the owner of view handle 1, which already had an entry. -/
theorem register_resource_view_unchecked_witness :
    (fun _ : Nat => false) 3 = false ∧
    (register_resource_view ({ _views := [(1, (2, 8))] } : device_impl Nat) 1 3 7)._views.find 1
      = some (3, 7) :=
  ⟨rfl,
   (register_resource_view_unchecked (fun _ : Nat => false)
      ({ _views := [(1, (2, 8))] } : device_impl Nat) 1 3 7 rfl).1⟩

/-- C4: when `source_handle` is absent from the view map, the copy overload reaches
`assert(false)` and returns the device unchanged; in particular the lookup of `handle`
gives what it gave before. -/
theorem register_resource_view_copy_absent {D : Type} (dev : device_impl D)
    (handle source_handle : Nat) (habsent : dev._views.find source_handle = none) :
    register_resource_view_copy dev handle source_handle = (dev, true) ∧
    (register_resource_view_copy dev handle source_handle).1._views = dev._views ∧
    (register_resource_view_copy dev handle source_handle).1._views.find handle
      = dev._views.find handle := by
  have hres : register_resource_view_copy dev handle source_handle = (dev, true) := by
    simp [register_resource_view_copy, habsent]
  rw [hres]
  exact ⟨rfl, rfl, rfl⟩

/-- Witness for C4: handle 9 is absent from `{7 ↦ (1, 10)}`; copying it to the present
handle 7 or to the absent handle 8 changes nothing. -/
theorem register_resource_view_copy_absent_witness :
    ({ _views := [(7, (1, 10))] } : device_impl Nat)._views.find 9 = none ∧
    register_resource_view_copy ({ _views := [(7, (1, 10))] } : device_impl Nat) 7 9
      = ({ _views := [(7, (1, 10))] }, true) ∧
    register_resource_view_copy ({ _views := [(7, (1, 10))] } : device_impl Nat) 8 9
      = ({ _views := [(7, (1, 10))] }, true) :=
  ⟨by decide,
   (register_resource_view_copy_absent
      ({ _views := [(7, (1, 10))] } : device_impl Nat) 7 9 (by decide)).1,
   (register_resource_view_copy_absent
      ({ _views := [(7, (1, 10))] } : device_impl Nat) 8 9 (by decide)).1⟩

end d3d12

/-! ## Direct3D 10: validity of handles and creation -/

namespace d3d10

/-- A successful `create_resource` has registered the native object and written its
address to `*out`. -/
theorem create_resource_of_ret (dev : device_impl) (type : resource_type)
    (reply : native_reply) (hret : (create_resource dev type reply).ret = true) :
    create_resource dev type reply =
      { device := { dev with _resources := dev._resources.register_object reply.object },
        out := reply.object, ret := true } := by
  cases type <;> by_cases hs : SUCCEEDED reply.hr = true <;>
    simp_all [create_resource, create_resource_case]

/-- A `create_resource` that returns `false` wrote the null handle and left the device
as it was. -/
theorem create_resource_of_not_ret (dev : device_impl) (type : resource_type)
    (reply : native_reply) (hret : (create_resource dev type reply).ret = false) :
    create_resource dev type reply = { device := dev, out := 0, ret := false } := by
  cases type <;> by_cases hs : SUCCEEDED reply.hr = true <;>
    simp_all [create_resource, create_resource_case]

/-- A successful `create_resource_view` has registered the native view and written its
address to `*out`. -/
theorem create_resource_view_of_ret (U : resource_usage_values) (dev : device_impl)
    (resource usage_type : Nat) (reply : native_reply)
    (hret : (create_resource_view U dev resource usage_type reply).ret = true) :
    create_resource_view U dev resource usage_type reply =
      { device := { dev with _views := dev._views.register_object reply.object },
        out := reply.object, ret := true } := by
  unfold create_resource_view at hret ⊢
  by_cases hs : SUCCEEDED reply.hr = true <;>
    by_cases h1 : usage_type = U.depth_stencil <;>
    by_cases h2 : usage_type = U.render_target <;>
    by_cases h3 : usage_type = U.shader_resource <;>
    simp_all [create_resource_view_case]

/-- A `create_resource_view` that returns `false` wrote the null handle and left the
device as it was. -/
theorem create_resource_view_of_not_ret (U : resource_usage_values) (dev : device_impl)
    (resource usage_type : Nat) (reply : native_reply)
    (hret : (create_resource_view U dev resource usage_type reply).ret = false) :
    create_resource_view U dev resource usage_type reply
      = { device := dev, out := 0, ret := false } := by
  unfold create_resource_view at hret ⊢
  by_cases hs : SUCCEEDED reply.hr = true <;>
    by_cases h1 : usage_type = U.depth_stencil <;>
    by_cases h2 : usage_type = U.render_target <;>
    by_cases h3 : usage_type = U.shader_resource <;>
    simp_all [create_resource_view_case]

/-- Whatever the native reply, a `create_resource` that returns true has the address it
wrote to `*out` in `_resources`, and a `create_resource_view` that returns true has it
in `_views`: `register_object` runs before `*out` is written. -/
theorem create_registers_out (U : resource_usage_values) (dev : device_impl)
    (type : resource_type) (resource usage_type : Nat) (reply : native_reply) :
    ((create_resource dev type reply).ret = true →
      (create_resource dev type reply).device._resources.has_object
        (create_resource dev type reply).out = true) ∧
    ((create_resource_view U dev resource usage_type reply).ret = true →
      (create_resource_view U dev resource usage_type reply).device._views.has_object
        (create_resource_view U dev resource usage_type reply).out = true) := by
  constructor
  · intro hret
    rw [create_resource_of_ret dev type reply hret]
    simp [object_registry.has_object, object_registry.register_object]
  · intro hret
    rw [create_resource_view_of_ret U dev resource usage_type reply hret]
    simp [object_registry.has_object, object_registry.register_object]

/-- C1: `check_resource_handle_valid(h)` is true exactly when `h` is non-zero and
registered in `_resources`, `check_resource_view_handle_valid(h)` exactly when `h` is
non-zero and registered in `_views`; for the null handle both return false after zero
calls of `has_object`, whatever the registries hold. -/
theorem check_handle_valid_iff (dev : device_impl) (h : Nat) :
    (check_resource_handle_valid dev h = true ↔ (h ≠ 0 ∧ h ∈ dev._resources.objects)) ∧
    (check_resource_view_handle_valid dev h = true ↔ (h ≠ 0 ∧ h ∈ dev._views.objects)) ∧
    check_resource_handle_valid_traced dev 0 = (false, 0) ∧
    check_resource_view_handle_valid_traced dev 0 = (false, 0) := by
  refine ⟨?_, ?_, ?_, ?_⟩
  · by_cases h0 : h = 0 <;>
      simp [check_resource_handle_valid, check_resource_handle_valid_traced,
        object_registry.has_object, h0]
  · by_cases h0 : h = 0 <;>
      simp [check_resource_view_handle_valid, check_resource_view_handle_valid_traced,
        object_registry.has_object, h0]
  · simp [check_resource_handle_valid_traced]
  · simp [check_resource_view_handle_valid_traced]

/-- C5, counterexample: a native reply that reports success and leaves the object
pointer null makes `create_resource` return true with handle 0 written to `*out`, and
that handle fails `check_resource_handle_valid` on the device the call leaves; the same
reply makes `create_resource_view` return true with a handle that fails
`check_resource_view_handle_valid`. -/
theorem create_returns_true_with_null_handle :
    (create_resource ⟨⟨[]⟩, ⟨[]⟩⟩ resource_type.texture_2d ⟨0, 0⟩).ret = true ∧
    (create_resource ⟨⟨[]⟩, ⟨[]⟩⟩ resource_type.texture_2d ⟨0, 0⟩).out = 0 ∧
    check_resource_handle_valid
      (create_resource ⟨⟨[]⟩, ⟨[]⟩⟩ resource_type.texture_2d ⟨0, 0⟩).device
      (create_resource ⟨⟨[]⟩, ⟨[]⟩⟩ resource_type.texture_2d ⟨0, 0⟩).out = false ∧
    (create_resource_view sample_usage_values ⟨⟨[4096]⟩, ⟨[]⟩⟩ 4096 4 ⟨0, 0⟩).ret = true ∧
    (create_resource_view sample_usage_values ⟨⟨[4096]⟩, ⟨[]⟩⟩ 4096 4 ⟨0, 0⟩).out = 0 ∧
    check_resource_view_handle_valid
      (create_resource_view sample_usage_values ⟨⟨[4096]⟩, ⟨[]⟩⟩ 4096 4 ⟨0, 0⟩).device
      (create_resource_view sample_usage_values ⟨⟨[4096]⟩, ⟨[]⟩⟩ 4096 4 ⟨0, 0⟩).out
      = false := by
  decide

/-- C5, amended: when the native driver's successful creation yields a non-null object,
whenever `create_resource` returns true (whichever case was taken) the handle written
to `*out` passes `check_resource_handle_valid` on the device as the call leaves it, and
whenever `create_resource_view` returns true the handle written to `*out` passes
`check_resource_view_handle_valid`. -/
theorem create_registers_before_return (U : resource_usage_values) (dev : device_impl)
    (type : resource_type) (resource usage_type : Nat) (reply : native_reply)
    (hdriver : SUCCEEDED reply.hr = true → reply.object ≠ 0) :
    ((create_resource dev type reply).ret = true →
      check_resource_handle_valid (create_resource dev type reply).device
        (create_resource dev type reply).out = true) ∧
    ((create_resource_view U dev resource usage_type reply).ret = true →
      check_resource_view_handle_valid
        (create_resource_view U dev resource usage_type reply).device
        (create_resource_view U dev resource usage_type reply).out = true) := by
  constructor
  · intro hret
    have hs : SUCCEEDED reply.hr = true := by
      by_contra hn
      cases type <;> simp_all [create_resource, create_resource_case]
    rw [create_resource_of_ret dev type reply hret]
    simp [check_resource_handle_valid, check_resource_handle_valid_traced,
      object_registry.has_object, object_registry.register_object, hdriver hs]
  · intro hret
    have hs : SUCCEEDED reply.hr = true := by
      by_contra hn
      unfold create_resource_view at hret
      by_cases h1 : usage_type = U.depth_stencil <;>
        by_cases h2 : usage_type = U.render_target <;>
        by_cases h3 : usage_type = U.shader_resource <;>
        simp_all [create_resource_view_case]
    rw [create_resource_view_of_ret U dev resource usage_type reply hret]
    simp [check_resource_view_handle_valid, check_resource_view_handle_valid_traced,
      object_registry.has_object, object_registry.register_object, hdriver hs]

end d3d10

namespace d3d10

/-- Witness for the amended C5: on an empty device a 2D texture is created at address
4096, and on a device holding that texture a render target view is created at address
8192; both handles pass their validity check. -/
theorem create_registers_before_return_witness :
    (SUCCEEDED (0 : Int) = true → (4096 : Nat) ≠ 0) ∧
    (create_resource ⟨⟨[]⟩, ⟨[]⟩⟩ resource_type.texture_2d ⟨0, 4096⟩).ret = true ∧
    check_resource_handle_valid
      (create_resource ⟨⟨[]⟩, ⟨[]⟩⟩ resource_type.texture_2d ⟨0, 4096⟩).device
      (create_resource ⟨⟨[]⟩, ⟨[]⟩⟩ resource_type.texture_2d ⟨0, 4096⟩).out = true ∧
    (SUCCEEDED (0 : Int) = true → (8192 : Nat) ≠ 0) ∧
    (create_resource_view sample_usage_values ⟨⟨[4096]⟩, ⟨[]⟩⟩ 4096 4 ⟨0, 8192⟩).ret = true ∧
    check_resource_view_handle_valid
      (create_resource_view sample_usage_values ⟨⟨[4096]⟩, ⟨[]⟩⟩ 4096 4 ⟨0, 8192⟩).device
      (create_resource_view sample_usage_values ⟨⟨[4096]⟩, ⟨[]⟩⟩ 4096 4 ⟨0, 8192⟩).out
      = true :=
  ⟨by decide, by decide,
   (create_registers_before_return sample_usage_values ⟨⟨[]⟩, ⟨[]⟩⟩ resource_type.texture_2d
      4096 4 ⟨0, 4096⟩ (by decide)).1 (by decide),
   by decide, by decide,
   (create_registers_before_return sample_usage_values ⟨⟨[4096]⟩, ⟨[]⟩⟩
      resource_type.texture_2d 4096 4 ⟨0, 8192⟩ (by decide)).2 (by decide)⟩

/-- C6: given a native driver whose successful creation yields a non-null object, each
of `create_sampler`, `create_resource` and `create_resource_view` returns false exactly
when the handle it writes to `*out` is 0. A resource type with no case, and a view
usage type equal to none of the three case labels, return false with handle 0 and the
device unchanged. -/
theorem create_false_iff_null_handle (U : resource_usage_values) (dev : device_impl)
    (type : resource_type) (resource usage_type : Nat) (reply : native_reply)
    (hdriver : SUCCEEDED reply.hr = true → reply.object ≠ 0) :
    ((create_sampler dev reply).ret = false ↔ (create_sampler dev reply).out = 0) ∧
    ((create_resource dev type reply).ret = false ↔
      (create_resource dev type reply).out = 0) ∧
    ((create_resource_view U dev resource usage_type reply).ret = false ↔
      (create_resource_view U dev resource usage_type reply).out = 0) ∧
    (∀ value : Nat, create_resource dev (resource_type.unlisted value) reply
      = { device := dev, out := 0, ret := false }) ∧
    (usage_type ≠ U.depth_stencil → usage_type ≠ U.render_target →
      usage_type ≠ U.shader_resource →
      create_resource_view U dev resource usage_type reply
        = { device := dev, out := 0, ret := false }) := by
  refine ⟨?_, ?_, ?_, ?_, ?_⟩
  · by_cases hs : SUCCEEDED reply.hr = true
    · simp [create_sampler, hs, hdriver hs]
    · simp [create_sampler, hs]
  · constructor
    · intro hret
      rw [create_resource_of_not_ret dev type reply hret]
    · intro hout
      by_contra hret
      have hret2 : (create_resource dev type reply).ret = true := by
        simpa using hret
      have heq := create_resource_of_ret dev type reply hret2
      have hs : SUCCEEDED reply.hr = true := by
        by_contra hn
        cases type <;> simp_all [create_resource, create_resource_case]
      rw [heq] at hout
      exact hdriver hs hout
  · constructor
    · intro hret
      rw [create_resource_view_of_not_ret U dev resource usage_type reply hret]
    · intro hout
      by_contra hret
      have hret2 : (create_resource_view U dev resource usage_type reply).ret = true := by
        simpa using hret
      have heq := create_resource_view_of_ret U dev resource usage_type reply hret2
      have hs : SUCCEEDED reply.hr = true := by
        by_contra hn
        unfold create_resource_view at hret2
        by_cases h1 : usage_type = U.depth_stencil <;>
          by_cases h2 : usage_type = U.render_target <;>
          by_cases h3 : usage_type = U.shader_resource <;>
          simp_all [create_resource_view_case]
      rw [heq] at hout
      exact hdriver hs hout
  · intro value
    rfl
  · intro h1 h2 h3
    simp [create_resource_view, h1, h2, h3]

/-- Witness for C6: a view requested with usage `unordered_access`, which is none of
the three case labels, against a driver that would have succeeded. -/
theorem create_false_iff_null_handle_witness :
    (SUCCEEDED (0 : Int) = true → (4096 : Nat) ≠ 0) ∧
    create_resource_view sample_usage_values ⟨⟨[]⟩, ⟨[]⟩⟩ 512
        sample_usage_values.unordered_access ⟨0, 4096⟩
      = { device := ⟨⟨[]⟩, ⟨[]⟩⟩, out := 0, ret := false } ∧
    ((create_sampler ⟨⟨[]⟩, ⟨[]⟩⟩ ⟨0, 4096⟩).ret = false ↔
      (create_sampler ⟨⟨[]⟩, ⟨[]⟩⟩ ⟨0, 4096⟩).out = 0) :=
  ⟨by decide,
   (create_false_iff_null_handle sample_usage_values ⟨⟨[]⟩, ⟨[]⟩⟩ resource_type.buffer 512
      sample_usage_values.unordered_access ⟨0, 4096⟩ (by decide)).2.2.2.2
      (by decide) (by decide) (by decide),
   (create_false_iff_null_handle sample_usage_values ⟨⟨[]⟩, ⟨[]⟩⟩ resource_type.buffer 512
      sample_usage_values.unordered_access ⟨0, 4096⟩ (by decide)).1⟩

end d3d10

/-! ## Direct3D 10: region copies -/

namespace d3d10

/-- C9, counterexample: `src_offset = 4294967295` and `size = 1` both fit in 32 bits
and pass the assertions, yet the box gets `right = 0`, which is neither
`src_offset + size` nor at least `left`. -/
theorem copy_buffer_region_right_wraps :
    copy_buffer_region_asserts 4096 4294967295 8192 0 1 = true ∧
    (copy_buffer_region 4096 4294967295 8192 0 1).pSrcBox.left = 4294967295 ∧
    (copy_buffer_region 4096 4294967295 8192 0 1).pSrcBox.right = 0 ∧
    (copy_buffer_region 4096 4294967295 8192 0 1).pSrcBox.right ≠ 4294967295 + 1 ∧
    ¬ ((copy_buffer_region 4096 4294967295 8192 0 1).pSrcBox.right
        ≥ (copy_buffer_region 4096 4294967295 8192 0 1).pSrcBox.left) := by
  decide

/-- C9, amended: under the assertions of `copy_buffer_region` the source box has
`left = src_offset`, `top = 0`, `front = 0`, `bottom = 1`, `back = 1`, the destination
x offset is `dst_offset`, and `right` is `src_offset + size` reduced modulo `2^32`; when
the sum `src_offset + size` fits in 32 bits as well, `right = src_offset + size`, so
that `right >= left` and `right - left = size`. -/
theorem copy_buffer_region_box (src src_offset dst dst_offset size : Nat)
    (hasserts : copy_buffer_region_asserts src src_offset dst dst_offset size = true) :
    (copy_buffer_region src src_offset dst dst_offset size).pSrcBox.left = src_offset ∧
    (copy_buffer_region src src_offset dst dst_offset size).pSrcBox.top = 0 ∧
    (copy_buffer_region src src_offset dst dst_offset size).pSrcBox.front = 0 ∧
    (copy_buffer_region src src_offset dst dst_offset size).pSrcBox.bottom = 1 ∧
    (copy_buffer_region src src_offset dst dst_offset size).pSrcBox.back = 1 ∧
    (copy_buffer_region src src_offset dst dst_offset size).DstX = dst_offset ∧
    (copy_buffer_region src src_offset dst dst_offset size).pSrcBox.right
      = (src_offset + size) % 2 ^ 32 ∧
    (src_offset + size ≤ UINT_MAX →
      (copy_buffer_region src src_offset dst dst_offset size).pSrcBox.right
        = src_offset + size ∧
      (copy_buffer_region src src_offset dst dst_offset size).pSrcBox.right
        ≥ (copy_buffer_region src src_offset dst dst_offset size).pSrcBox.left ∧
      (copy_buffer_region src src_offset dst dst_offset size).pSrcBox.right
        - (copy_buffer_region src src_offset dst dst_offset size).pSrcBox.left = size) := by
  simp only [copy_buffer_region_asserts, UINT_MAX, Bool.and_eq_true, decide_eq_true_eq]
    at hasserts
  obtain ⟨_, ⟨hso, hdo⟩, hsz⟩ := hasserts
  have hleft : src_offset % 2 ^ 32 = src_offset := Nat.mod_eq_of_lt (by omega)
  have hdst : dst_offset % 2 ^ 32 = dst_offset := Nat.mod_eq_of_lt (by omega)
  have h64 : (src_offset + size) % 2 ^ 64 = src_offset + size :=
    Nat.mod_eq_of_lt (by omega)
  simp only [copy_buffer_region, to_UINT, add_u64, UINT_MAX, hleft, hdst, h64]
  refine ⟨trivial, trivial, trivial, trivial, trivial, trivial, trivial, ?_⟩
  intro hsum
  have hright : (src_offset + size) % 2 ^ 32 = src_offset + size :=
    Nat.mod_eq_of_lt (by omega)
  rw [hright]
  omega

/-- Witness for the amended C9: 256 bytes copied from offset 1024 to offset 64. -/
theorem copy_buffer_region_box_witness :
    copy_buffer_region_asserts 4096 1024 8192 64 256 = true ∧
    (copy_buffer_region 4096 1024 8192 64 256).pSrcBox = ⟨1024, 0, 0, 1280, 1, 1⟩ ∧
    (copy_buffer_region 4096 1024 8192 64 256).pSrcBox.right = 1024 + 256 :=
  ⟨by decide, by decide,
   ((copy_buffer_region_box 4096 1024 8192 64 256 (by decide)).2.2.2.2.2.2.2
      (by decide)).1⟩

/-- Whatever its arguments, `copy_texture_region` hands `src_subresource` to the native
call as the destination subresource and `dst_subresource` as the source subresource. -/
theorem copy_texture_region_subresources (desc : resource_desc) (src src_subresource : Nat)
    (src_offset : Option (Int × Int × Int)) (dst dst_subresource : Nat)
    (dst_offset : Option (Int × Int × Int)) (size : Option (Nat × Nat × Nat)) :
    (copy_texture_region desc src src_subresource src_offset dst dst_subresource
      dst_offset size).DstSubresource = src_subresource ∧
    (copy_texture_region desc src src_subresource src_offset dst dst_subresource
      dst_offset size).SrcSubresource = dst_subresource ∧
    (copy_texture_region desc src src_subresource src_offset dst dst_subresource
      dst_offset size).pDstResource = dst ∧
    (copy_texture_region desc src src_subresource src_offset dst dst_subresource
      dst_offset size).pSrcResource = src :=
  ⟨rfl, rfl, rfl, rfl⟩

/-- With a null `size` and a null `src_offset`, the source box of `copy_texture_region`
starts at the origin and its extents are those of mip level
`src_subresource % desc.levels`, each at least 1 (for 32-bit `width` and `height` and a
16-bit `depth_or_layers`). -/
theorem copy_texture_region_default_box (desc : resource_desc) (src src_subresource : Nat)
    (dst dst_subresource : Nat) (dst_offset : Option (Int × Int × Int))
    (hwidth : desc.width < 2 ^ 32) (hheight : desc.height < 2 ^ 32)
    (hdepth : desc.depth_or_layers < 2 ^ 16) :
    (copy_texture_region desc src src_subresource none dst dst_subresource
      dst_offset none).pSrcBox.left = 0 ∧
    (copy_texture_region desc src src_subresource none dst dst_subresource
      dst_offset none).pSrcBox.right
      = max 1 (desc.width >>> (src_subresource % desc.levels)) ∧
    (copy_texture_region desc src src_subresource none dst dst_subresource
      dst_offset none).pSrcBox.bottom
      = max 1 (desc.height >>> (src_subresource % desc.levels)) ∧
    (copy_texture_region desc src src_subresource none dst dst_subresource
      dst_offset none).pSrcBox.back
      = (if desc.type = resource_type.texture_3d then
          max 1 (desc.depth_or_layers >>> (src_subresource % desc.levels)) else 1) ∧
    1 ≤ (copy_texture_region desc src src_subresource none dst dst_subresource
      dst_offset none).pSrcBox.right ∧
    1 ≤ (copy_texture_region desc src src_subresource none dst dst_subresource
      dst_offset none).pSrcBox.bottom ∧
    1 ≤ (copy_texture_region desc src src_subresource none dst dst_subresource
      dst_offset none).pSrcBox.back := by
  have hshift : ∀ a k : Nat, a >>> k ≤ a := by
    intro a k
    rw [Nat.shiftRight_eq_div_pow]
    exact Nat.div_le_self _ _
  have hw := hshift desc.width (src_subresource % desc.levels)
  have hh := hshift desc.height (src_subresource % desc.levels)
  have hd := hshift desc.depth_or_layers (src_subresource % desc.levels)
  have e1 : (0 + max 1 (desc.width >>> (src_subresource % desc.levels))) % 2 ^ 32
      = max 1 (desc.width >>> (src_subresource % desc.levels)) := by
    rw [Nat.zero_add]
    exact Nat.mod_eq_of_lt (by omega)
  have e2 : (0 + max 1 (desc.height >>> (src_subresource % desc.levels))) % 2 ^ 32
      = max 1 (desc.height >>> (src_subresource % desc.levels)) := by
    rw [Nat.zero_add]
    exact Nat.mod_eq_of_lt (by omega)
  have e3 : (0 + max 1 (desc.depth_or_layers >>> (src_subresource % desc.levels))) % 2 ^ 32
      = max 1 (desc.depth_or_layers >>> (src_subresource % desc.levels)) := by
    rw [Nat.zero_add]
    exact Nat.mod_eq_of_lt (by omega)
  simp only [copy_texture_region, add_UINT, e1, e2]
  refine ⟨trivial, trivial, trivial, ?_, ?_, ?_, ?_⟩
  · by_cases h3 : desc.type = resource_type.texture_3d
    · simp only [h3, if_true, e3]
    · simp [h3]
  · omega
  · omega
  · by_cases h3 : desc.type = resource_type.texture_3d
    · simp only [h3, if_true, e3]
      omega
    · simp [h3]

/-- C10, the code at a failing input: copying subresource 0 of the texture at 4096 to
subresource 1 of the texture at 8192 issues the native copy with destination
subresource 0 and source subresource 1, the two indices exchanged, whereas `resolve`
on the same arguments names destination subresource 1 and source subresource 0. -/
theorem copy_texture_region_swaps_subresources :
    (copy_texture_region ⟨resource_type.texture_2d, 256, 256, 1, 4⟩
      4096 0 none 8192 1 none none).pDstResource = 8192 ∧
    (copy_texture_region ⟨resource_type.texture_2d, 256, 256, 1, 4⟩
      4096 0 none 8192 1 none none).DstSubresource = 0 ∧
    (copy_texture_region ⟨resource_type.texture_2d, 256, 256, 1, 4⟩
      4096 0 none 8192 1 none none).pSrcResource = 4096 ∧
    (copy_texture_region ⟨resource_type.texture_2d, 256, 256, 1, 4⟩
      4096 0 none 8192 1 none none).SrcSubresource = 1 ∧
    resolve 4096 0 8192 1 28 = (8192, 1, 4096, 0, 28) := by
  decide

end d3d10

/-! ## Direct3D 10: format support -/

namespace d3d10

theorem lor_eq_zero_iff (a b : Nat) : a ||| b = 0 ↔ a = 0 ∧ b = 0 := by
  constructor
  · intro h
    constructor
    · apply Nat.eq_of_testBit_eq
      intro i
      have hbit := congrArg (fun n => Nat.testBit n i) h
      simp only [Nat.testBit_or, Nat.zero_testBit, Bool.or_eq_false_iff] at hbit
      simp [hbit.1]
    · apply Nat.eq_of_testBit_eq
      intro i
      have hbit := congrArg (fun n => Nat.testBit n i) h
      simp only [Nat.testBit_or, Nat.zero_testBit, Bool.or_eq_false_iff] at hbit
      simp [hbit.2]
  · rintro ⟨rfl, rfl⟩
    rfl

/-- A mask shares a bit with `a | b` exactly when it shares a bit with `a` or with `b`. -/
theorem and_lor_ne_zero_iff (x a b : Nat) :
    x &&& (a ||| b) ≠ 0 ↔ (x &&& a ≠ 0 ∨ x &&& b ≠ 0) := by
  rw [Nat.and_or_distrib_left, Ne, lor_eq_zero_iff]
  tauto

/-- For a flag that is a single bit, sharing no bit with the flag is the same as having
that bit clear. -/
theorem and_two_pow_eq_zero_iff (usage k : Nat) :
    usage &&& 2 ^ k = 0 ↔ usage.testBit k = false := by
  constructor
  · intro h
    have hbit := congrArg (fun n => Nat.testBit n k) h
    simpa [Nat.testBit_and, Nat.testBit_two_pow_self] using hbit
  · intro h
    apply Nat.eq_of_testBit_eq
    intro i
    by_cases hk : k = i
    · subst hk
      simp [h]
    · simp [Nat.testBit_two_pow, hk]

/-- The native call succeeds exactly when `FAILED` is false. -/
theorem SUCCEEDED_iff_not_FAILED (hr : Int) : SUCCEEDED hr = true ↔ FAILED hr = false := by
  simp [SUCCEEDED, FAILED]

/-- C11: for every format, usage mask and native driver, `check_format_support` returns
true if and only if the mask shares no bit with `unordered_access`, the native
`CheckFormatSupport` call on that format succeeds, and every requested usage class has
its support bit in the reply: `render_target` needs `RENDER_TARGET`, `depth_stencil`
needs `DEPTH_STENCIL`, `shader_resource` needs `SHADER_SAMPLE`, and `resolve_source` or
`resolve_dest` needs `MULTISAMPLE_RESOLVE`. A mask with none of the six usage bits is
supported whenever the native call succeeds. -/
theorem check_format_support_iff (U : resource_usage_values) (S : D3D10_FORMAT_SUPPORT)
    (CheckFormatSupport : Nat → format_support_reply) (format usage : Nat) :
    (check_format_support U S CheckFormatSupport format usage = true ↔
      (usage &&& U.unordered_access = 0 ∧
       SUCCEEDED (CheckFormatSupport format).hr = true ∧
       (usage &&& U.render_target ≠ 0 →
         (CheckFormatSupport format).support &&& S.RENDER_TARGET ≠ 0) ∧
       (usage &&& U.depth_stencil ≠ 0 →
         (CheckFormatSupport format).support &&& S.DEPTH_STENCIL ≠ 0) ∧
       (usage &&& U.shader_resource ≠ 0 →
         (CheckFormatSupport format).support &&& S.SHADER_SAMPLE ≠ 0) ∧
       (usage &&& U.resolve_source ≠ 0 ∨ usage &&& U.resolve_dest ≠ 0 →
         (CheckFormatSupport format).support &&& S.MULTISAMPLE_RESOLVE ≠ 0))) ∧
    (usage &&& U.unordered_access = 0 → usage &&& U.render_target = 0 →
      usage &&& U.depth_stencil = 0 → usage &&& U.shader_resource = 0 →
      usage &&& U.resolve_source = 0 → usage &&& U.resolve_dest = 0 →
      SUCCEEDED (CheckFormatSupport format).hr = true →
      check_format_support U S CheckFormatSupport format usage = true) := by
  have hiff : check_format_support U S CheckFormatSupport format usage = true ↔
      (usage &&& U.unordered_access = 0 ∧
       SUCCEEDED (CheckFormatSupport format).hr = true ∧
       (usage &&& U.render_target ≠ 0 →
         (CheckFormatSupport format).support &&& S.RENDER_TARGET ≠ 0) ∧
       (usage &&& U.depth_stencil ≠ 0 →
         (CheckFormatSupport format).support &&& S.DEPTH_STENCIL ≠ 0) ∧
       (usage &&& U.shader_resource ≠ 0 →
         (CheckFormatSupport format).support &&& S.SHADER_SAMPLE ≠ 0) ∧
       (usage &&& U.resolve_source ≠ 0 ∨ usage &&& U.resolve_dest ≠ 0 →
         (CheckFormatSupport format).support &&& S.MULTISAMPLE_RESOLVE ≠ 0)) := by
    rw [← and_lor_ne_zero_iff, SUCCEEDED_iff_not_FAILED]
    unfold check_format_support
    by_cases h0 : usage &&& U.unordered_access = 0
    · by_cases hf : FAILED (CheckFormatSupport format).hr = true
      · simp [h0, hf]
      · by_cases h1 : usage &&& U.render_target = 0 <;>
          by_cases h1s : (CheckFormatSupport format).support &&& S.RENDER_TARGET = 0 <;>
          by_cases h2 : usage &&& U.depth_stencil = 0 <;>
          by_cases h2s : (CheckFormatSupport format).support &&& S.DEPTH_STENCIL = 0 <;>
          by_cases h3 : usage &&& U.shader_resource = 0 <;>
          by_cases h3s : (CheckFormatSupport format).support &&& S.SHADER_SAMPLE = 0 <;>
          simp [h0, hf, h1, h1s, h2, h2s, h3, h3s] <;>
          tauto
    · simp [h0]
  refine ⟨hiff, ?_⟩
  intro h0 h1 h2 h3 h4 h5 hs
  rw [hiff]
  refine ⟨h0, hs, ?_, ?_, ?_, ?_⟩
  · intro h; exact absurd h1 h
  · intro h; exact absurd h2 h
  · intro h; exact absurd h3 h
  · intro h
    rcases h with h | h
    · exact absurd h4 h
    · exact absurd h5 h

/-- Witness for C11: with a driver that succeeds and reports `RENDER_TARGET` and
`SHADER_SAMPLE`, the mask `render_target | shader_resource` (196) is supported; a mask
with none of the six usage bits (1024) is supported on a bare success; and the masks
`unordered_access` (8) and `depth_stencil` (48) are not supported by the first driver. -/
theorem check_format_support_iff_witness :
    check_format_support sample_usage_values sample_format_support
      (fun _ => ⟨0, 16896⟩) 28 196 = true ∧
    check_format_support sample_usage_values sample_format_support
      (fun _ => ⟨0, 0⟩) 28 1024 = true ∧
    check_format_support sample_usage_values sample_format_support
      (fun _ => ⟨0, 16896⟩) 28 8 = false ∧
    check_format_support sample_usage_values sample_format_support
      (fun _ => ⟨0, 16896⟩) 28 48 = false :=
  ⟨(check_format_support_iff sample_usage_values sample_format_support
      (fun _ => ⟨0, 16896⟩) 28 196).1.mpr (by decide),
   (check_format_support_iff sample_usage_values sample_format_support
      (fun _ => ⟨0, 0⟩) 28 1024).2 (by decide) (by decide) (by decide) (by decide)
      (by decide) (by decide) (by decide),
   by decide, by decide⟩

end d3d10

end reshade
